import Mathlib

/-
Verification of the train-booking conversational agent
(src/langchain-agent/agent.py) against its natural-language design
specification.

The Python module is shallowly embedded: the mutable agent object becomes
explicit state passing, HTTP calls to the booking backend become a record
of response-valued functions (the Backend), and every backend request made
during a turn is recorded in an explicit call trace so that statements of
the form "no booking call is made" are expressible.  Python values of type
str-or-None are modelled as Option String with explicit truthiness.
-/

namespace TrainBooking

/-- The closed intent vocabulary of IntentResponse.intent. -/
inductive Intent where
  | query_ticket
  | book_ticket
  | cancel_ticket
  | list_trains
  | search_trains
  | my_tickets
  | unknown
deriving DecidableEq, Repr

/-- The Train dataclass: an entity summary as parsed from backend JSON. -/
structure Train where
  id : String
  from_city : String
  to_city : String
  date : String
  departure_time : String
  arrival_time : String
  total_tickets : Int
  available : Int
deriving DecidableEq, Inhabited, Repr

/-- The UserBooking dataclass. -/
structure UserBooking where
  train_id : String
  count : Int
deriving DecidableEq, Inhabited, Repr

/-- Python Dict[str, Optional[str]] as a partial map: the outer none means
the key is absent, some none means the key is present holding None, and
some (some s) means the key holds the string s. -/
def Params : Type := String → Option (Option String)

/-- Python truthiness of a str-or-None value: None and the empty string
are falsy, every other string is truthy. -/
def truthy : Option String → Bool
  | none => false
  | some s => !(s == "")

/-- The string carried by a str-or-None value; only applied at use sites
that are guarded by truthiness, where the value is a non-empty string. -/
def optVal : Option String → String
  | none => ""
  | some s => s

/-- Python params.get(k, dflt). -/
def pget (d : Params) (k : String) (dflt : Option String) : Option String :=
  match d k with
  | some v => v
  | none => dflt

/-- Python dict assignment params[k] = v. -/
def pset (d : Params) (k : String) (v : Option String) : Params :=
  fun k2 => if k2 = k then some v else d k2

/-- The empty dict literal. -/
def emptyParams : Params := fun _ => none

/-- Build a dict from explicit bindings (first binding of a key wins;
literal dicts in the modelled code never repeat a key). -/
def paramsOf (l : List (String × Option String)) : Params :=
  fun k => (l.find? (fun p => p.1 == k)).map Prod.snd

/-- Python x or y where x is str-or-None and y is a string. -/
def pyOrS (x : Option String) (y : String) : String :=
  match x with
  | some s => if s == "" then y else s
  | none => y

/-- Only truthy criteria are copied into the query-parameter dict of the
catalog search request (absent or empty criteria are omitted). -/
def normParam (v : Option String) : Option String :=
  if truthy v = true then v else none

/-- The structured record produced by intent extraction
(the IntentResponse pydantic model). -/
structure IntentResponse where
  intent : Intent
  parameters : Params
  missing_parameters : List String
  clarify_question : Option String

/-- One backend HTTP request issued during a turn, with its arguments as
they appear in the request. -/
inductive BackendCall where
  | ticketsCall (from_city to_city date : Option String)
  | queryCall (id : String)
  | bookCall (id userId : String)
  | cancelCall (id userId : String)
  | listCall
  | userTicketsCall (userId : String)
deriving DecidableEq, Repr

/-- Outcome of GET /tickets: an HTTP response carrying a status code and,
when the body parses, the train list; or a raised exception (network
error, malformed body). -/
inductive TicketsResult where
  | resp (status : Int) (trains : List Train)
  | exn (msg : String)
deriving DecidableEq, Repr

/-- Outcome of GET /query as the code discriminates it: 200 with a parsed
train, 404, another status (with its status text), or a raised
exception. -/
inductive QueryResult where
  | ok (train : Train)
  | notFound
  | errStatus (statusText : String)
  | exn (msg : String)
deriving DecidableEq, Repr

/-- Outcome of GET /book as the code discriminates it. -/
inductive BookResult where
  | ok
  | notFound
  | conflict
  | badRequest (text : String)
  | errStatus (statusText : String)
  | exn (msg : String)
deriving DecidableEq, Repr

/-- Outcome of GET /cancel as the code discriminates it. -/
inductive CancelResult where
  | ok
  | notFound
  | conflict
  | errStatus (statusText : String)
  | exn (msg : String)
deriving DecidableEq, Repr

/-- Outcome of GET /list. -/
inductive ListResult where
  | ok (trains : List Train)
  | errStatus (statusText : String)
  | exn (msg : String)
deriving DecidableEq, Repr

/-- Outcome of GET /user/tickets. -/
inductive UserTicketsResult where
  | ok (bookings : List UserBooking)
  | errStatus (statusText : String)
  | exn (msg : String)
deriving DecidableEq, Repr

/-- The external booking backend: a response for every request the agent
can issue.  The backend is an external collaborator, so it is universally
quantified in the theorems. -/
structure Backend where
  tickets : Option String → Option String → Option String → TicketsResult
  query : String → QueryResult
  book : String → String → BookResult
  cancel : String → String → CancelResult
  listAll : ListResult
  userTickets : String → UserTicketsResult

/-- self.default_user_id. -/
def defaultUserId : String := "user_001"

/-- _search_trains_internal: builds the query-parameter dict from the
truthy criteria, issues GET /tickets, and returns the parsed train list;
any non-200 status or raised exception yields the empty list.  Also
returns the trace of backend calls issued. -/
def searchTrainsInternal (b : Backend) (from_city to_city date : Option String) :
    List Train × List BackendCall :=
  let call := BackendCall.ticketsCall (normParam from_city) (normParam to_city) (normParam date)
  match b.tickets (normParam from_city) (normParam to_city) (normParam date) with
  | .resp status trains => (if status = 200 then trains else [], [call])
  | .exn _ => ([], [call])

/-- _query_train: single-entity lookup with its user-facing messages. -/
def queryTrain (b : Backend) (train_id : String) : String × List BackendCall :=
  (match b.query train_id with
   | .notFound => "❌ Train " ++ train_id ++ " not found"
   | .errStatus st => "❌ Error: " ++ st
   | .ok t =>
       "🚄 Train " ++ t.id ++
       "\n📍 Route: " ++ t.from_city ++ " → " ++ t.to_city ++
       "\n📅 Date: " ++ t.date ++
       "\n🕐 Departure: " ++ t.departure_time ++ " | Arrival: " ++ t.arrival_time ++
       "\n🎫 Available: " ++ toString t.available ++ "/" ++ toString t.total_tickets ++ " tickets"
   | .exn m => "❌ Error querying train: " ++ m
  , [BackendCall.queryCall train_id])

/-- _book_ticket: effective user id is user_id or current_user_id or the
default, then GET /book with the status-code to message mapping. -/
def bookTicket (b : Backend) (cur : Option String) (train_id : String) (user_id : Option String) :
    String × List BackendCall :=
  let eff := pyOrS user_id (pyOrS cur defaultUserId)
  (match b.book train_id eff with
   | .notFound => "❌ Train " ++ train_id ++ " not found"
   | .conflict => "❌ No tickets available for train " ++ train_id
   | .badRequest t => "❌ Invalid request: " ++ t
   | .errStatus st => "❌ Error: " ++ st
   | .ok => "✅ Successfully booked ticket for train " ++ train_id ++ " for user " ++ eff ++ "!"
   | .exn m => "❌ Error booking ticket: " ++ m
  , [BackendCall.bookCall train_id eff])

/-- _cancel_ticket. -/
def cancelTicket (b : Backend) (cur : Option String) (train_id : String) (user_id : Option String) :
    String × List BackendCall :=
  let eff := pyOrS user_id (pyOrS cur defaultUserId)
  (match b.cancel train_id eff with
   | .notFound => "❌ Train " ++ train_id ++ " not found"
   | .conflict => "❌ No tickets to cancel for train " ++ train_id
   | .errStatus st => "❌ Error: " ++ st
   | .ok => "✅ Successfully canceled ticket for train " ++ train_id ++ "!"
   | .exn m => "❌ Error canceling ticket: " ++ m
  , [BackendCall.cancelCall train_id eff])

/-- One numbered line of a train listing, as built by _list_trains and
_search_trains. -/
def trainLine (i : Nat) (t : Train) : String :=
  toString i ++ ". " ++ t.id ++ ": " ++ t.from_city ++ " → " ++ t.to_city ++ " | " ++
  t.date ++ " | " ++ t.departure_time ++ "-" ++ t.arrival_time ++
  " (" ++ toString t.available ++ "/" ++ toString t.total_tickets ++ " available)\n"

/-- _list_trains. -/
def listTrains (b : Backend) : String × List BackendCall :=
  (match b.listAll with
   | .errStatus st => "❌ Error: " ++ st
   | .ok [] => "❌ No trains available"
   | .ok trains =>
       "🚄 Available Trains:\n" ++ String.join (trains.enum.map (fun p => trainLine (p.1 + 1) p.2))
   | .exn m => "❌ Error fetching train list: " ++ m
  , [BackendCall.listCall])

/-- The criteria echo built by appending a piece for each truthy
criterion ("from X", "to Y", "on Z"), used by the ambiguity question and
by _search_trains. -/
def criteriaParts (from_city to_city date : Option String) : List String :=
  (if truthy from_city = true then ["from " ++ optVal from_city] else []) ++
  (if truthy to_city = true then ["to " ++ optVal to_city] else []) ++
  (if truthy date = true then ["on " ++ optVal date] else [])

/-- _search_trains: the user-facing search with its result rendering. -/
def searchTrains (b : Backend) (from_city to_city date : Option String) :
    String × List BackendCall :=
  let res := searchTrainsInternal b from_city to_city date
  (match res.1 with
   | [] =>
       let parts := criteriaParts from_city to_city date
       let criteria_text := if parts.isEmpty then "matching your criteria"
                            else String.intercalate " " parts
       "❌ No trains found " ++ criteria_text
   | trains =>
       "🔍 Search Results:\n" ++ String.join (trains.enum.map (fun p => trainLine (p.1 + 1) p.2))
  , res.2)

/-- _get_train_details: best-effort single-entity lookup, none on any
non-200 status or exception. -/
def getTrainDetails (b : Backend) (train_id : String) : Option Train × List BackendCall :=
  (match b.query train_id with
   | .ok t => some t
   | _ => none
  , [BackendCall.queryCall train_id])

/-- One bullet line of the user-tickets listing, enriched with the entity
detail lookup when it succeeds. -/
def bookingLine (b : Backend) (bk : UserBooking) : String × List BackendCall :=
  let det := getTrainDetails b bk.train_id
  (match det.1 with
   | some t =>
       "• " ++ bk.train_id ++ ": " ++ t.from_city ++ " → " ++ t.to_city ++ " | " ++
       t.date ++ " | " ++ t.departure_time ++ "-" ++ t.arrival_time ++
       " (x" ++ toString bk.count ++ " tickets)\n"
   | none => "• " ++ bk.train_id ++ " (x" ++ toString bk.count ++ " tickets)\n"
  , det.2)

/-- _get_user_tickets. -/
def getUserTickets (b : Backend) (cur : Option String) (user_id : Option String) :
    String × List BackendCall :=
  let eff := pyOrS user_id (pyOrS cur defaultUserId)
  match b.userTickets eff with
  | .errStatus st => ("❌ Error: " ++ st, [BackendCall.userTicketsCall eff])
  | .ok [] => ("📋 No booked tickets found for user " ++ eff ++ ".", [BackendCall.userTicketsCall eff])
  | .ok bookings =>
      let lines := bookings.map (fun bk => bookingLine b bk)
      ("🎫 Booked Tickets for user " ++ eff ++ ":\n" ++ String.join (lines.map Prod.fst),
       BackendCall.userTicketsCall eff :: (lines.map Prod.snd).flatten)
  | .exn m => ("❌ Error fetching tickets: " ++ m, [BackendCall.userTicketsCall eff])

/-- intent.replace("_ticket", "").replace("_", " ") tabulated over the
closed intent vocabulary. -/
def actionWord : Intent → String
  | .query_ticket => "query"
  | .book_ticket => "book"
  | .cancel_ticket => "cancel"
  | .list_trains => "list trains"
  | .search_trains => "search trains"
  | .my_tickets => "my tickets"
  | .unknown => "unknown"

/-- One numbered candidate line of the ambiguity clarification, as built
in _check_train_ambiguity and in the book branch of _execute_action. -/
def trainOptionLine (i : Nat) (t : Train) : String :=
  toString i ++ ". " ++ t.id ++ ": " ++ t.from_city ++ " → " ++ t.to_city ++ " | " ++
  t.date ++ " | " ++ t.departure_time

/-- The multiple-match clarification question built by
_check_train_ambiguity: up to 5 numbered candidates, the criteria echo,
the action verb, and the first candidate id as the example. -/
def ambiguityQuestion (intent : Intent) (from_city to_city date : Option String)
    (matching : List Train) : String :=
  let options_text :=
    String.intercalate "\n" ((matching.take 5).enum.map (fun p => trainOptionLine (p.1 + 1) p.2))
  let parts := criteriaParts from_city to_city date
  let criteria_str := if parts.isEmpty then "matching your criteria"
                      else String.intercalate " " parts
  "I found multiple trains " ++ criteria_str ++ ":\n\n" ++ options_text ++
  "\n\nWhich specific train would you like to " ++ actionWord intent ++
  "? Please specify the train ID (e.g., " ++ matching.headI.id ++ ")."

/-- _check_train_ambiguity.  Returns the clarification question when one
is produced, the (possibly auto-filled) parameter dict, and the backend
calls issued.  The single-match branch mutates parameters["train_id"];
note the multiple-match branch fires even when a train_id is present. -/
def checkTrainAmbiguity (b : Backend) (resp : IntentResponse) :
    Option String × Params × List BackendCall :=
  if resp.intent = .book_ticket ∨ resp.intent = .cancel_ticket ∨ resp.intent = .query_ticket then
    let params := resp.parameters
    let train_id := pget params "train_id" (some "")
    let from_city := pget params "from_city" (some "")
    let to_city := pget params "to_city" (some "")
    let date := pget params "date" (some "")
    if truthy from_city = true ∨ truthy to_city = true then
      let res := searchTrainsInternal b from_city to_city date
      let matching := res.1
      if matching.length > 1 then
        (some (ambiguityQuestion resp.intent from_city to_city date matching), params, res.2)
      else if matching.length = 1 ∧ truthy train_id = false then
        (none, pset params "train_id" (some matching.headI.id), res.2)
      else
        (none, params, res.2)
    else (none, params, [])
  else (none, resp.parameters, [])

/-- The zero-match message of the book branch of _execute_action: the
three criteria pieces (empty strings for absent criteria) joined with
single spaces, then stripped at both ends only. -/
def noTrainsFoundMsg (from_city to_city date : Option String) : String :=
  "❌ No trains found " ++
  (String.intercalate " "
    [if truthy from_city = true then "from " ++ optVal from_city else "",
     if truthy to_city = true then "to " ++ optVal to_city else "",
     if truthy date = true then "on " ++ optVal date else ""]).trim

/-- The fallthrough message of _execute_action. -/
def unknownMsg : String :=
  "❌ I don\x27t understand that request. I can help you query trains, book tickets, cancel bookings, list all trains, search by criteria, or show your tickets."

/-- The dispatch section of _execute_action (everything after the
ambiguity check and the clarify-question gate), over the possibly
auto-filled parameter dict and the trace accumulated so far. -/
def dispatchIntent (b : Backend) (cur : Option String) (intent : Intent)
    (params : Params) (tr0 : List BackendCall) : String × List BackendCall :=
  match intent with
  | .query_ticket =>
      let train_id := pget params "train_id" (some "")
      if truthy train_id = false then
        ("❌ Please specify a train ID (e.g., G100, D200, K300)", tr0)
      else
        let r := queryTrain b (optVal train_id)
        (r.1, tr0 ++ r.2)
  | .book_ticket =>
      let train_id := pget params "train_id" (some "")
      let user_id := pget params "user_id" (some "")
      let from_city := pget params "from_city" (some "")
      let to_city := pget params "to_city" (some "")
      let date := pget params "date" (some "")
      if truthy train_id = false ∧ (truthy from_city = true ∨ truthy to_city = true) then
        let res := searchTrainsInternal b from_city to_city date
        let matching := res.1
        if matching.length > 1 then
          let options_text :=
            String.intercalate "\n" ((matching.take 5).enum.map (fun p => trainOptionLine (p.1 + 1) p.2))
          let parts := criteriaParts from_city to_city date
          let criteria_str := if parts.isEmpty then "matching your criteria"
                              else String.intercalate " " parts
          ("🤔 I found multiple trains " ++ criteria_str ++ ":\n\n" ++ options_text ++
           "\n\nWhich specific train would you like to book? Please specify the train ID (e.g., " ++
           matching.headI.id ++ ").", tr0 ++ res.2)
        else if matching.length = 1 then
          let train_id2 := some matching.headI.id
          if truthy train_id2 = false then
            ("❌ Please specify a train ID to book", tr0 ++ res.2)
          else
            let r := bookTicket b cur (optVal train_id2) user_id
            (r.1, tr0 ++ res.2 ++ r.2)
        else
          (noTrainsFoundMsg from_city to_city date, tr0 ++ res.2)
      else
        if truthy train_id = false then
          ("❌ Please specify a train ID to book", tr0)
        else
          let r := bookTicket b cur (optVal train_id) user_id
          (r.1, tr0 ++ r.2)
  | .cancel_ticket =>
      let train_id := pget params "train_id" (some "")
      let user_id := pget params "user_id" (some "")
      if truthy train_id = false then
        ("❌ Please specify a train ID to cancel", tr0)
      else
        let r := cancelTicket b cur (optVal train_id) user_id
        (r.1, tr0 ++ r.2)
  | .list_trains =>
      let r := listTrains b
      (r.1, tr0 ++ r.2)
  | .search_trains =>
      let r := searchTrains b (pget params "from_city" (some ""))
                 (pget params "to_city" (some "")) (pget params "date" (some ""))
      (r.1, tr0 ++ r.2)
  | .my_tickets =>
      let r := getUserTickets b cur (pget params "user_id" (some ""))
      (r.1, tr0 ++ r.2)
  | .unknown => (unknownMsg, tr0)

/-- _execute_action: the ambiguity check runs first and its question, when
produced, is returned; otherwise the extractor clarify question is
returned unless the intent is book/cancel with location criteria; then the
dispatch table runs. -/
def executeAction (b : Backend) (cur : Option String) (resp : IntentResponse) :
    String × List BackendCall :=
  match checkTrainAmbiguity b resp with
  | (some q, _, tr0) => ("🤔 " ++ q, tr0)
  | (none, params, tr0) =>
      if truthy resp.clarify_question = true ∧
         ¬((resp.intent = .book_ticket ∨ resp.intent = .cancel_ticket) ∧
           (truthy (pget params "from_city" none) = true ∨
            truthy (pget params "to_city" none) = true)) then
        ("🤔 " ++ optVal resp.clarify_question, tr0)
      else
        dispatchIntent b cur resp.intent params tr0

/-- The fallback IntentResponse built in the except branch of
_extract_intent: unknown intent, empty dict of parameters, no missing
parameters, and the fixed fallback clarifying question. -/
def fallbackIntent : IntentResponse :=
  { intent := .unknown
    parameters := emptyParams
    missing_parameters := []
    clarify_question := some "I didn\x27t understand your request. Could you please rephrase it?" }

/-- A speaker tag in the conversation memory. -/
inductive Role where
  | user
  | ai
deriving DecidableEq, Repr

/-- One message of the conversation memory. -/
structure ChatMsg where
  role : Role
  content : String
deriving DecidableEq, Repr

/-- The mutable agent session state: the conversation memory message list
and the current user id carried across turns. -/
structure AgentState where
  memory : List ChatMsg
  current_user_id : Option String

/-- _extract_intent: the understanding oracle either yields a structured
result or fails; on failure the fallback record is returned and nothing
is raised.  When the result carries a truthy user_id parameter,
current_user_id is updated here, inside extraction. -/
def extractIntent (oracleResult : Option IntentResponse) (st : AgentState) :
    IntentResponse × AgentState :=
  match oracleResult with
  | none => (fallbackIntent, st)
  | some result =>
      let uid := pget result.parameters "user_id" none
      if truthy uid = true then (result, { st with current_user_id := uid })
      else (result, st)

/-- One iteration of the chat loop for a non-empty, non-quit input:
extract the intent (with the oracle reading the current memory), execute
the action, then append the user message and the agent response to the
conversation memory. -/
def chatTurn (oracle : String → List ChatMsg → Option IntentResponse) (b : Backend)
    (st : AgentState) (user_input : String) :
    String × List BackendCall × AgentState :=
  let ext := extractIntent (oracle user_input st.memory) st
  let act := executeAction b ext.2.current_user_id ext.1
  (act.1, act.2,
   { ext.2 with memory := ext.2.memory ++ [⟨Role.user, user_input⟩, ⟨Role.ai, act.1⟩] })

/-- The backend operation dispatched for a resolved entity id of a
query/book/cancel intent (an abbreviation of the corresponding dispatch
arms, used to state the theorems). -/
def dispatchExplicitOp (b : Backend) (cur : Option String) (intent : Intent)
    (train_id : String) (user_id : Option String) : String × List BackendCall :=
  match intent with
  | .query_ticket => queryTrain b train_id
  | .book_ticket => bookTicket b cur train_id user_id
  | .cancel_ticket => cancelTicket b cur train_id user_id
  | _ => ("", [])

/-- Modelled from the specification wording: one candidate rendered as
rank. id: origin → destination | date | departureTime. -/
def specCandidateLine (rank : Nat) (e : Train) : String :=
  toString rank ++ ". " ++ e.id ++ ": " ++ e.from_city ++ " → " ++ e.to_city ++ " | " ++
  e.date ++ " | " ++ e.departure_time

/-- Modelled from the specification wording: at most the first 5 matches
in catalog order, ranked from 1. -/
def specCandidateList (ms : List Train) : List String :=
  (ms.take 5).enum.map (fun p => specCandidateLine (p.1 + 1) p.2)

/-- Modelled from the specification wording: the action verb derived from
the operation (CreateBooking to book, CancelBooking to cancel,
QueryEntity to query). -/
def specVerb : Intent → String
  | .book_ticket => "book"
  | .cancel_ticket => "cancel"
  | .query_ticket => "query"
  | _ => ""

/-- A sample catalog entity. -/
def trainG100 : Train :=
  { id := "G100", from_city := "Beijing", to_city := "Shanghai", date := "2025-03-01",
    departure_time := "08:00", arrival_time := "12:00", total_tickets := 100, available := 40 }

/-- A second sample catalog entity on the same route. -/
def trainG102 : Train :=
  { id := "G102", from_city := "Beijing", to_city := "Shanghai", date := "2025-03-01",
    departure_time := "09:30", arrival_time := "13:30", total_tickets := 100, available := 12 }

/-- A backend whose catalog search always yields the given result and
whose command endpoints answer plainly. -/
def mkBackend (t : TicketsResult) : Backend :=
  { tickets := fun _ _ _ => t
    query := fun _ => QueryResult.ok trainG100
    book := fun _ _ => BookResult.ok
    cancel := fun _ _ => CancelResult.ok
    listAll := ListResult.ok [trainG100]
    userTickets := fun _ => UserTicketsResult.ok [] }

/-- Backend with two matching trains for every search. -/
def backendTwo : Backend := mkBackend (TicketsResult.resp 200 [trainG100, trainG102])

/-- Backend with exactly one matching train for every search. -/
def backendOne : Backend := mkBackend (TicketsResult.resp 200 [trainG100])

/-- Backend with no matching train for every search. -/
def backendNone : Backend := mkBackend (TicketsResult.resp 200 [])

/-- Backend whose catalog search raises. -/
def backendFail : Backend := mkBackend (TicketsResult.exn "connection refused")

/-- The origin slot of an intent record as every consumer reads it. -/
def slotFrom (resp : IntentResponse) : Option String :=
  pget resp.parameters "from_city" (some "")

/-- The destination slot of an intent record as every consumer reads it. -/
def slotTo (resp : IntentResponse) : Option String :=
  pget resp.parameters "to_city" (some "")

/-- The date slot of an intent record as every consumer reads it. -/
def slotDate (resp : IntentResponse) : Option String :=
  pget resp.parameters "date" (some "")

/-- The entity-id slot of an intent record as every consumer reads it. -/
def slotTrainId (resp : IntentResponse) : Option String :=
  pget resp.parameters "train_id" (some "")

/-- The user-id slot of an intent record as every consumer reads it. -/
def slotUserId (resp : IntentResponse) : Option String :=
  pget resp.parameters "user_id" (some "")

/-- The catalog search the ambiguity resolver issues for an intent
record. -/
def resolverSearch (b : Backend) (resp : IntentResponse) : List Train × List BackendCall :=
  searchTrainsInternal b (slotFrom resp) (slotTo resp) (slotDate resp)

/-- Convenience builder for concrete intent records. -/
def mkResp (i : Intent) (ps : List (String × Option String)) (cq : Option String) :
    IntentResponse :=
  { intent := i, parameters := paramsOf ps, missing_parameters := [], clarify_question := cq }

/-- A fresh session state. -/
def st0 : AgentState := { memory := [], current_user_id := none }

/-- An oracle result that carries a user id. -/
def respUser4343 : IntentResponse :=
  mkResp Intent.my_tickets [("user_id", some "4343")] none

/-- Reading a key just assigned returns the assigned value. -/
theorem pget_pset_self (d : Params) (k : String) (v dflt : Option String) :
    pget (pset d k v) k dflt = v := by
  simp [pget, pset]

/-- Reading another key is unaffected by an assignment. -/
theorem pget_pset_ne (d : Params) (k k2 : String) (v dflt : Option String) (h : k2 ≠ k) :
    pget (pset d k v) k2 dflt = pget d k2 dflt := by
  simp [pget, pset, h]

/-- Truthiness of a slot read does not depend on whether the read used
default None or default empty string. -/
theorem truthy_pget_none (d : Params) (k : String) :
    truthy (pget d k none) = truthy (pget d k (some "")) := by
  unfold pget
  cases d k with
  | some v => rfl
  | none => decide

/-- The internal search always issues exactly one catalog request, built
from the truthy criteria. -/
theorem searchTrainsInternal_trace (b : Backend) (f t d : Option String) :
    (searchTrainsInternal b f t d).2 =
      [BackendCall.ticketsCall (normParam f) (normParam t) (normParam d)] := by
  unfold searchTrainsInternal
  rcases hb : b.tickets (normParam f) (normParam t) (normParam d) <;> simp [hb]

/-- With no truthy location criterion the ambiguity check issues no
catalog request and passes the record through untouched. -/
theorem checkAmb_noloc (b : Backend) (resp : IntentResponse)
    (hf : truthy (slotFrom resp) = false) (ht : truthy (slotTo resp) = false) :
    checkTrainAmbiguity b resp = (none, resp.parameters, []) := by
  unfold slotFrom at hf
  unfold slotTo at ht
  unfold checkTrainAmbiguity
  by_cases hi : resp.intent = .book_ticket ∨ resp.intent = .cancel_ticket ∨
      resp.intent = .query_ticket
  · simp [hi, hf, ht]
  · simp [hi]

/-- With a truthy location criterion and at least two matches the
ambiguity check returns the clarification question. -/
theorem checkAmb_multi (b : Backend) (resp : IntentResponse) (ts : List Train)
    (hi : resp.intent = .book_ticket ∨ resp.intent = .cancel_ticket ∨
      resp.intent = .query_ticket)
    (hloc : truthy (slotFrom resp) = true ∨ truthy (slotTo resp) = true)
    (hs : (resolverSearch b resp).1 = ts)
    (hlen : 1 < ts.length) :
    checkTrainAmbiguity b resp =
      (some (ambiguityQuestion resp.intent (slotFrom resp) (slotTo resp) (slotDate resp) ts),
       resp.parameters, (resolverSearch b resp).2) := by
  unfold resolverSearch at hs
  unfold slotFrom slotTo slotDate at *
  unfold checkTrainAmbiguity
  simp [hi, hloc, hs, hlen, resolverSearch, slotFrom, slotTo, slotDate]

/-- With a truthy location criterion, exactly one match, and no explicit
train id, the ambiguity check auto-fills the train id and asks nothing. -/
theorem checkAmb_single (b : Backend) (resp : IntentResponse) (tr : Train)
    (hi : resp.intent = .book_ticket ∨ resp.intent = .cancel_ticket ∨
      resp.intent = .query_ticket)
    (hloc : truthy (slotFrom resp) = true ∨ truthy (slotTo resp) = true)
    (hid : truthy (slotTrainId resp) = false)
    (hs : (resolverSearch b resp).1 = [tr]) :
    checkTrainAmbiguity b resp =
      (none, pset resp.parameters "train_id" (some tr.id), (resolverSearch b resp).2) := by
  unfold resolverSearch at hs
  unfold slotFrom slotTo slotDate slotTrainId at *
  unfold checkTrainAmbiguity
  simp [hi, hloc, hs, hid, resolverSearch, slotFrom, slotTo, slotDate]

/-- With a truthy location criterion and at most one match but an explicit
train id already present, the ambiguity check leaves the record
untouched. -/
theorem checkAmb_keep (b : Backend) (resp : IntentResponse) (ts : List Train)
    (hi : resp.intent = .book_ticket ∨ resp.intent = .cancel_ticket ∨
      resp.intent = .query_ticket)
    (hloc : truthy (slotFrom resp) = true ∨ truthy (slotTo resp) = true)
    (hid : truthy (slotTrainId resp) = true)
    (hs : (resolverSearch b resp).1 = ts)
    (hlen : ts.length ≤ 1) :
    checkTrainAmbiguity b resp = (none, resp.parameters, (resolverSearch b resp).2) := by
  unfold resolverSearch at hs
  unfold slotFrom slotTo slotDate slotTrainId at *
  unfold checkTrainAmbiguity
  have h1 : ¬(1 < ts.length) := by omega
  simp [hi, hloc, hs, hid, h1, resolverSearch, slotFrom, slotTo, slotDate]

/-- With a truthy location criterion and no match the ambiguity check
falls through untouched. -/
theorem checkAmb_zero (b : Backend) (resp : IntentResponse)
    (hi : resp.intent = .book_ticket ∨ resp.intent = .cancel_ticket ∨
      resp.intent = .query_ticket)
    (hloc : truthy (slotFrom resp) = true ∨ truthy (slotTo resp) = true)
    (hs : (resolverSearch b resp).1 = []) :
    checkTrainAmbiguity b resp = (none, resp.parameters, (resolverSearch b resp).2) := by
  unfold resolverSearch at hs
  unfold slotFrom slotTo slotDate at *
  unfold checkTrainAmbiguity
  simp [hi, hloc, hs, resolverSearch, slotFrom, slotTo, slotDate]

/-- When the ambiguity check produces a question, that question is the
whole response. -/
theorem executeAction_of_some (b : Backend) (cur : Option String) (resp : IntentResponse)
    (q : String) (P : Params) (T : List BackendCall)
    (h : checkTrainAmbiguity b resp = (some q, P, T)) :
    executeAction b cur resp = ("🤔 " ++ q, T) := by
  unfold executeAction
  rw [h]

/-- When the ambiguity check asks nothing, the turn continues with the
clarify-question gate and then the dispatch table. -/
theorem executeAction_of_none (b : Backend) (cur : Option String) (resp : IntentResponse)
    (P : Params) (T : List BackendCall)
    (h : checkTrainAmbiguity b resp = (none, P, T)) :
    executeAction b cur resp =
      if truthy resp.clarify_question = true ∧
         ¬((resp.intent = .book_ticket ∨ resp.intent = .cancel_ticket) ∧
           (truthy (pget P "from_city" none) = true ∨
            truthy (pget P "to_city" none) = true)) then
        ("🤔 " ++ optVal resp.clarify_question, T)
      else dispatchIntent b cur resp.intent P T := by
  unfold executeAction
  rw [h]

/-- The ambiguity check can only write the train_id key: every other slot
reads the same before and after it. -/
theorem checkAmb_params_from (b : Backend) (resp : IntentResponse) (k : String)
    (dflt : Option String) (hk : k ≠ "train_id") :
    pget (checkTrainAmbiguity b resp).2.1 k dflt = pget resp.parameters k dflt := by
  unfold checkTrainAmbiguity
  dsimp only
  split
  · split
    · split
      · rfl
      · split
        · exact pget_pset_ne _ _ _ _ _ hk
        · rfl
    · rfl
  · rfl

/-- Claim C10: the internal catalog search is total: a raised exception or
any non-200 backend response yields the empty list, exactly as a 200
response with zero matches does, so a failed query is indistinguishable
from a query with no matches at this interface.  (Totality itself is
structural: searchTrainsInternal is a total function of the backend
response.) -/
theorem claim10_search_total (b : Backend) (f t d : Option String) :
    (∀ m, b.tickets (normParam f) (normParam t) (normParam d) = TicketsResult.exn m →
       searchTrainsInternal b f t d =
         ([], [BackendCall.ticketsCall (normParam f) (normParam t) (normParam d)])) ∧
    (∀ (code : Int) (ts : List Train),
       b.tickets (normParam f) (normParam t) (normParam d) = TicketsResult.resp code ts →
       code ≠ 200 →
       searchTrainsInternal b f t d =
         ([], [BackendCall.ticketsCall (normParam f) (normParam t) (normParam d)])) ∧
    (∀ b2 : Backend,
       b2.tickets (normParam f) (normParam t) (normParam d) = TicketsResult.resp 200 [] →
       searchTrainsInternal b2 f t d =
         ([], [BackendCall.ticketsCall (normParam f) (normParam t) (normParam d)])) := by
  refine ⟨?_, ?_, ?_⟩
  · intro m hm
    unfold searchTrainsInternal
    rw [hm]
  · intro code ts hc hne
    unfold searchTrainsInternal
    rw [hc]
    simp [hne]
  · intro b2 h2
    unfold searchTrainsInternal
    rw [h2]
    simp

/-- Witness for claim C10 at a concrete failing backend. -/
theorem claim10_witness :
    backendFail.tickets (normParam (some "Beijing")) (normParam none) (normParam none) =
      TicketsResult.exn "connection refused" ∧
    searchTrainsInternal backendFail (some "Beijing") none none =
      ([], [BackendCall.ticketsCall (normParam (some "Beijing")) (normParam none)
        (normParam none)]) :=
  ⟨rfl, (claim10_search_total backendFail (some "Beijing") none none).1 "connection refused" rfl⟩

/-- Claim C6: on any failure of the understanding oracle, extraction
returns (without raising, since it is a total function) the fallback
record: operation unknown, all five slots reading as empty, no missing
parameters, the fixed non-empty fallback clarifying question, and the
session state untouched. -/
theorem claim6_oracle_failure_fallback (st : AgentState) :
    (extractIntent none st).1.intent = Intent.unknown ∧
    pget (extractIntent none st).1.parameters "train_id" (some "") = some "" ∧
    pget (extractIntent none st).1.parameters "user_id" (some "") = some "" ∧
    pget (extractIntent none st).1.parameters "from_city" (some "") = some "" ∧
    pget (extractIntent none st).1.parameters "to_city" (some "") = some "" ∧
    pget (extractIntent none st).1.parameters "date" (some "") = some "" ∧
    (extractIntent none st).1.missing_parameters = [] ∧
    (extractIntent none st).1.clarify_question =
      some "I didn\x27t understand your request. Could you please rephrase it?" ∧
    truthy (extractIntent none st).1.clarify_question = true ∧
    (extractIntent none st).2 = st :=
  ⟨rfl, rfl, rfl, rfl, rfl, rfl, rfl, rfl, by rfl, rfl⟩

/-- Claim C5 counterexample: the fallback record returned on oracle
failure has an empty parameters mapping: none of the five slot keys is
present in it, refuting the invariant that every produced record carries
exactly the five keys. -/
theorem claim5_counterexample :
    (extractIntent none st0).1.parameters "train_id" = none ∧
    (extractIntent none st0).1.parameters "user_id" = none ∧
    (extractIntent none st0).1.parameters "from_city" = none ∧
    (extractIntent none st0).1.parameters "to_city" = none ∧
    (extractIntent none st0).1.parameters "date" = none :=
  ⟨rfl, rfl, rfl, rfl, rfl⟩

/-- Claim C5 as amended: extraction passes oracle records through with
whatever keys they carry, and the fallback record has an empty slots
mapping; every slot read uses an empty-string default, so each of the
five slots of the fallback record still reads as the empty string. -/
theorem claim5_slots_shape (st : AgentState) (r : IntentResponse) :
    (extractIntent (some r) st).1 = r ∧
    (extractIntent none st).1.parameters = emptyParams ∧
    pget (extractIntent none st).1.parameters "train_id" (some "") = some "" ∧
    pget (extractIntent none st).1.parameters "user_id" (some "") = some "" ∧
    pget (extractIntent none st).1.parameters "from_city" (some "") = some "" ∧
    pget (extractIntent none st).1.parameters "to_city" (some "") = some "" ∧
    pget (extractIntent none st).1.parameters "date" (some "") = some "" := by
  refine ⟨?_, rfl, rfl, rfl, rfl, rfl, rfl⟩
  unfold extractIntent
  by_cases h : truthy (pget r.parameters "user_id" none) = true <;> simp [h]

/-- Claim C9 counterexample: with an oracle result carrying user id 4343,
the current-user-id field of the session state has already changed by the
end of intent extraction, before any response is computed, while the turn
log is still untouched. -/
theorem claim9_counterexample :
    (extractIntent (some respUser4343) st0).2.current_user_id ≠ st0.current_user_id ∧
    (extractIntent (some respUser4343) st0).2.memory = st0.memory := by
  exact ⟨by decide, rfl⟩

/-- Claim C9 as amended: the turn log is mutated only at end-of-turn
(extraction leaves it untouched and the turn appends exactly the user
utterance and the agent response after the response is computed), but
currentUserId is committed during intent extraction, whenever the oracle
result carries a truthy user id, and is not touched again later in the
turn. -/
theorem claim9_mutation_timing (oracle : String → List ChatMsg → Option IntentResponse)
    (b : Backend) (st : AgentState) (input : String) :
    (chatTurn oracle b st input).2.2.memory =
      st.memory ++ [⟨Role.user, input⟩, ⟨Role.ai, (chatTurn oracle b st input).1⟩] ∧
    (extractIntent (oracle input st.memory) st).2.memory = st.memory ∧
    (chatTurn oracle b st input).2.2.current_user_id =
      (extractIntent (oracle input st.memory) st).2.current_user_id ∧
    (∀ r : IntentResponse,
       (extractIntent (some r) st).2.current_user_id =
         (if truthy (pget r.parameters "user_id" none) = true
          then pget r.parameters "user_id" none else st.current_user_id)) := by
  have hmem : ∀ o : Option IntentResponse, (extractIntent o st).2.memory = st.memory := by
    intro o
    unfold extractIntent
    rcases o with _ | r
    · rfl
    · by_cases h : truthy (pget r.parameters "user_id" none) = true <;> simp [h]
  refine ⟨?_, hmem _, ?_, ?_⟩
  · unfold chatTurn
    simp [hmem]
  · unfold chatTurn
    simp
  · intro r
    unfold extractIntent
    by_cases h : truthy (pget r.parameters "user_id" none) = true <;> simp [h]

/-- Claim C1: for a book or cancel intent with a truthy origin or
destination slot, the response of the turn does not depend on the
clarifying question the extractor produced: the ambiguity check runs
first, its outcome (together with the dispatch table) determines the
response, and the extractor question is never the message surfaced. -/
theorem claim1_ambiguity_takes_precedence (b : Backend) (cur : Option String)
    (resp : IntentResponse) (q : Option String)
    (hi : resp.intent = Intent.book_ticket ∨ resp.intent = Intent.cancel_ticket)
    (hloc : truthy (slotFrom resp) = true ∨ truthy (slotTo resp) = true) :
    executeAction b cur resp = executeAction b cur { resp with clarify_question := q } := by
  have hamb : checkTrainAmbiguity b { resp with clarify_question := q } =
      checkTrainAmbiguity b resp := rfl
  rcases h : checkTrainAmbiguity b resp with ⟨oq, P, T⟩
  rcases oq with _ | q0
  · have hF : truthy (pget P "from_city" none) = truthy (slotFrom resp) := by
      have hP : P = (checkTrainAmbiguity b resp).2.1 := by rw [h]
      rw [hP, checkAmb_params_from b resp "from_city" none (by decide), truthy_pget_none]
      rfl
    have hT : truthy (pget P "to_city" none) = truthy (slotTo resp) := by
      have hP : P = (checkTrainAmbiguity b resp).2.1 := by rw [h]
      rw [hP, checkAmb_params_from b resp "to_city" none (by decide), truthy_pget_none]
      rfl
    have hcond : (resp.intent = Intent.book_ticket ∨ resp.intent = Intent.cancel_ticket) ∧
        (truthy (pget P "from_city" none) = true ∨ truthy (pget P "to_city" none) = true) :=
      ⟨hi, by rw [hF, hT]; exact hloc⟩
    rw [executeAction_of_none b cur resp P T h,
        executeAction_of_none b cur { resp with clarify_question := q } P T (hamb.trans h)]
    rw [if_neg (fun hc => hc.2 hcond), if_neg (fun hc => hc.2 hcond)]
  · rw [executeAction_of_some b cur resp q0 P T h,
        executeAction_of_some b cur { resp with clarify_question := q } q0 P T (hamb.trans h)]

/-- Witness for claim C1 at a concrete book intent with origin Beijing, an
extractor question, and a single-match backend. -/
theorem claim1_witness :
    ((mkResp Intent.book_ticket [("from_city", some "Beijing")] (some "Which user?")).intent =
        Intent.book_ticket ∨
      (mkResp Intent.book_ticket [("from_city", some "Beijing")] (some "Which user?")).intent =
        Intent.cancel_ticket) ∧
    truthy (slotFrom (mkResp Intent.book_ticket [("from_city", some "Beijing")]
      (some "Which user?"))) = true ∧
    executeAction backendOne none
        (mkResp Intent.book_ticket [("from_city", some "Beijing")] (some "Which user?")) =
      executeAction backendOne none
        { mkResp Intent.book_ticket [("from_city", some "Beijing")] (some "Which user?") with
          clarify_question := some "Problem?" } :=
  ⟨Or.inl rfl, by rfl,
   claim1_ambiguity_takes_precedence backendOne none
     (mkResp Intent.book_ticket [("from_city", some "Beijing")] (some "Which user?"))
     (some "Problem?") (Or.inl rfl) (Or.inl (by rfl))⟩

/-- With at least one truthy criterion the criteria echo is non-empty. -/
theorem criteriaParts_ne_empty (f t d : Option String)
    (h : truthy f = true ∨ truthy t = true) :
    (criteriaParts f t d).isEmpty = false := by
  unfold criteriaParts
  rcases h with h | h <;>
    by_cases hf : truthy f = true <;>
    by_cases hd : truthy d = true <;>
    simp_all

/-- The code action word agrees with the spec verb on the three resolver
operations. -/
theorem actionWord_eq_specVerb (i : Intent)
    (hi : i = Intent.book_ticket ∨ i = Intent.cancel_ticket ∨ i = Intent.query_ticket) :
    actionWord i = specVerb i := by
  rcases hi with h | h | h <;> rw [h] <;> rfl

/-- Claim C3: for a query/book/cancel intent with truthy location criteria
whose catalog search yields two or more matches, the response is the
clarification question listing at most the first 5 matches in catalog
order in the spec format, naming the action verb derived from the
operation and suggesting the first candidate id, and the only backend
request of the turn is the catalog search: no booking or cancel call is
made. -/
theorem claim3_multi_match_clarification (b : Backend) (cur : Option String)
    (resp : IntentResponse) (t0 t1 : Train) (rest : List Train)
    (hi : resp.intent = Intent.book_ticket ∨ resp.intent = Intent.cancel_ticket ∨
      resp.intent = Intent.query_ticket)
    (hloc : truthy (slotFrom resp) = true ∨ truthy (slotTo resp) = true)
    (hs : (resolverSearch b resp).1 = t0 :: t1 :: rest) :
    executeAction b cur resp =
      ("🤔 " ++
        ("I found multiple trains " ++
         String.intercalate " " (criteriaParts (slotFrom resp) (slotTo resp) (slotDate resp)) ++
         ":\n\n" ++
         String.intercalate "\n" (specCandidateList (t0 :: t1 :: rest)) ++
         "\n\nWhich specific train would you like to " ++ specVerb resp.intent ++
         "? Please specify the train ID (e.g., " ++ t0.id ++ ")."),
       [BackendCall.ticketsCall (normParam (slotFrom resp)) (normParam (slotTo resp))
         (normParam (slotDate resp))]) := by
  have hq := checkAmb_multi b resp (t0 :: t1 :: rest) hi hloc hs (by simp)
  have hne := criteriaParts_ne_empty (slotFrom resp) (slotTo resp) (slotDate resp) hloc
  have htr : (resolverSearch b resp).2 =
      [BackendCall.ticketsCall (normParam (slotFrom resp)) (normParam (slotTo resp))
        (normParam (slotDate resp))] := by
    unfold resolverSearch
    exact searchTrainsInternal_trace b _ _ _
  rw [executeAction_of_some b cur resp _ _ _ hq, htr]
  unfold ambiguityQuestion
  rw [actionWord_eq_specVerb resp.intent hi]
  simp [hne, specCandidateList, specCandidateLine, trainOptionLine]

/-- Witness for claim C3: booking from Beijing to Shanghai against a
catalog with two matching trains. -/
theorem claim3_witness :
    (resolverSearch backendTwo
        (mkResp Intent.book_ticket
          [("from_city", some "Beijing"), ("to_city", some "Shanghai")] none)).1 =
      [trainG100, trainG102] ∧
    executeAction backendTwo none
        (mkResp Intent.book_ticket
          [("from_city", some "Beijing"), ("to_city", some "Shanghai")] none) =
      ("🤔 " ++
        ("I found multiple trains " ++
         String.intercalate " "
           (criteriaParts
             (slotFrom (mkResp Intent.book_ticket
               [("from_city", some "Beijing"), ("to_city", some "Shanghai")] none))
             (slotTo (mkResp Intent.book_ticket
               [("from_city", some "Beijing"), ("to_city", some "Shanghai")] none))
             (slotDate (mkResp Intent.book_ticket
               [("from_city", some "Beijing"), ("to_city", some "Shanghai")] none))) ++
         ":\n\n" ++
         String.intercalate "\n" (specCandidateList [trainG100, trainG102]) ++
         "\n\nWhich specific train would you like to " ++
         specVerb (mkResp Intent.book_ticket
           [("from_city", some "Beijing"), ("to_city", some "Shanghai")] none).intent ++
         "? Please specify the train ID (e.g., " ++ trainG100.id ++ ")."),
       [BackendCall.ticketsCall
         (normParam (slotFrom (mkResp Intent.book_ticket
           [("from_city", some "Beijing"), ("to_city", some "Shanghai")] none)))
         (normParam (slotTo (mkResp Intent.book_ticket
           [("from_city", some "Beijing"), ("to_city", some "Shanghai")] none)))
         (normParam (slotDate (mkResp Intent.book_ticket
           [("from_city", some "Beijing"), ("to_city", some "Shanghai")] none)))]) :=
  ⟨rfl,
   claim3_multi_match_clarification backendTwo none
     (mkResp Intent.book_ticket
       [("from_city", some "Beijing"), ("to_city", some "Shanghai")] none)
     trainG100 trainG102 [] (Or.inl rfl) (Or.inl (by rfl)) rfl⟩

/-- Claim C2 counterexample: a query intent with empty entityId, origin
Beijing, an extractor clarifying question, and a single-match catalog:
the response is the extractor question, not a dispatch, so the turn does
not proceed to dispatch without asking any question. -/
theorem claim2_counterexample :
    executeAction backendOne none
        (mkResp Intent.query_ticket [("from_city", some "Beijing")] (some "Which date?")) =
      ("🤔 Which date?", [BackendCall.ticketsCall (some "Beijing") none none]) := by
  rfl

/-- Claim C2 as amended: with empty entityId, a truthy location
criterion, and exactly one (non-empty-id) match, the resolver auto-fills
the entityId slot and asks nothing itself; the turn proceeds straight to
the dispatched backend operation whenever the extractor produced no
clarifying question or the operation is book or cancel; for a query
operation with a non-empty extractor clarifying question, that question
is still surfaced instead of dispatching (the slot stays filled). -/
theorem claim2_single_match_autofill (b : Backend) (cur : Option String)
    (resp : IntentResponse) (tr : Train)
    (hi : resp.intent = Intent.book_ticket ∨ resp.intent = Intent.cancel_ticket ∨
      resp.intent = Intent.query_ticket)
    (hloc : truthy (slotFrom resp) = true ∨ truthy (slotTo resp) = true)
    (hid : truthy (slotTrainId resp) = false)
    (hs : (resolverSearch b resp).1 = [tr])
    (htid : tr.id ≠ "") :
    (checkTrainAmbiguity b resp).1 = none ∧
    pget (checkTrainAmbiguity b resp).2.1 "train_id" (some "") = some tr.id ∧
    (truthy resp.clarify_question = false ∨
       resp.intent = Intent.book_ticket ∨ resp.intent = Intent.cancel_ticket →
     executeAction b cur resp =
       ((dispatchExplicitOp b cur resp.intent tr.id (slotUserId resp)).1,
        (resolverSearch b resp).2 ++
          (dispatchExplicitOp b cur resp.intent tr.id (slotUserId resp)).2)) ∧
    (resp.intent = Intent.query_ticket → truthy resp.clarify_question = true →
     executeAction b cur resp =
       ("🤔 " ++ optVal resp.clarify_question, (resolverSearch b resp).2)) := by
  have hca := checkAmb_single b resp tr hi hloc hid hs
  have hPid : pget (pset resp.parameters "train_id" (some tr.id)) "train_id" (some "") =
      some tr.id := pget_pset_self _ _ _ _
  have htr : truthy (some tr.id) = true := by
    simp [truthy, htid]
  have hPid2 :
      truthy (pget (pset resp.parameters "train_id" (some tr.id)) "train_id" (some "")) =
        true := by
    rw [hPid]; exact htr
  have hPuser : pget (pset resp.parameters "train_id" (some tr.id)) "user_id" (some "") =
      pget resp.parameters "user_id" (some "") := pget_pset_ne _ _ _ _ _ (by decide)
  have hlocP :
      truthy (pget (pset resp.parameters "train_id" (some tr.id)) "from_city" none) = true ∨
      truthy (pget (pset resp.parameters "train_id" (some tr.id)) "to_city" none) = true := by
    rcases hloc with h | h
    · left
      rw [pget_pset_ne _ _ _ _ _ (by decide : ("from_city" : String) ≠ "train_id"),
        truthy_pget_none]
      exact h
    · right
      rw [pget_pset_ne _ _ _ _ _ (by decide : ("to_city" : String) ≠ "train_id"),
        truthy_pget_none]
      exact h
  refine ⟨by rw [hca], by rw [hca]; exact hPid, ?_, ?_⟩
  · intro hdisj
    rw [executeAction_of_none b cur resp _ _ hca]
    have hC : ¬(truthy resp.clarify_question = true ∧
        ¬((resp.intent = Intent.book_ticket ∨ resp.intent = Intent.cancel_ticket) ∧
          (truthy (pget (pset resp.parameters "train_id" (some tr.id)) "from_city" none) =
            true ∨
           truthy (pget (pset resp.parameters "train_id" (some tr.id)) "to_city" none) =
            true))) := by
      rcases hdisj with hf | hb | hb
      · intro hc
        rw [hf] at hc
        exact Bool.false_ne_true hc.1
      · intro hc
        exact hc.2 ⟨Or.inl hb, hlocP⟩
      · intro hc
        exact hc.2 ⟨Or.inr hb, hlocP⟩
    rw [if_neg hC]
    rcases hi with hb | hb | hb <;> rw [hb] <;>
      unfold dispatchIntent dispatchExplicitOp <;>
      simp [hPid2, hPid, hPuser, htr, slotUserId, optVal]
  · intro hqi hcl
    rw [executeAction_of_none b cur resp _ _ hca]
    have hC : truthy resp.clarify_question = true ∧
        ¬((resp.intent = Intent.book_ticket ∨ resp.intent = Intent.cancel_ticket) ∧
          (truthy (pget (pset resp.parameters "train_id" (some tr.id)) "from_city" none) =
            true ∨
           truthy (pget (pset resp.parameters "train_id" (some tr.id)) "to_city" none) =
            true)) := by
      refine ⟨hcl, ?_⟩
      rintro ⟨hor, -⟩
      rcases hor with h1 | h1 <;> rw [hqi] at h1 <;> exact Intent.noConfusion h1
    rw [if_pos hC]

/-- Witness for claim C2 at a concrete book intent, origin Beijing, no
extractor question, and a single-match backend. -/
theorem claim2_witness :
    (resolverSearch backendOne
        (mkResp Intent.book_ticket [("from_city", some "Beijing")] none)).1 = [trainG100] ∧
    ((checkTrainAmbiguity backendOne
        (mkResp Intent.book_ticket [("from_city", some "Beijing")] none)).1 = none ∧
     pget (checkTrainAmbiguity backendOne
        (mkResp Intent.book_ticket [("from_city", some "Beijing")] none)).2.1
        "train_id" (some "") = some trainG100.id ∧
     (truthy (mkResp Intent.book_ticket [("from_city", some "Beijing")] none).clarify_question =
          false ∨
        (mkResp Intent.book_ticket [("from_city", some "Beijing")] none).intent =
          Intent.book_ticket ∨
        (mkResp Intent.book_ticket [("from_city", some "Beijing")] none).intent =
          Intent.cancel_ticket →
      executeAction backendOne none
          (mkResp Intent.book_ticket [("from_city", some "Beijing")] none) =
        ((dispatchExplicitOp backendOne none
            (mkResp Intent.book_ticket [("from_city", some "Beijing")] none).intent
            trainG100.id
            (slotUserId (mkResp Intent.book_ticket [("from_city", some "Beijing")] none))).1,
         (resolverSearch backendOne
            (mkResp Intent.book_ticket [("from_city", some "Beijing")] none)).2 ++
           (dispatchExplicitOp backendOne none
              (mkResp Intent.book_ticket [("from_city", some "Beijing")] none).intent
              trainG100.id
              (slotUserId (mkResp Intent.book_ticket
                [("from_city", some "Beijing")] none))).2)) ∧
     ((mkResp Intent.book_ticket [("from_city", some "Beijing")] none).intent =
          Intent.query_ticket →
      truthy (mkResp Intent.book_ticket [("from_city", some "Beijing")] none).clarify_question =
          true →
      executeAction backendOne none
          (mkResp Intent.book_ticket [("from_city", some "Beijing")] none) =
        ("🤔 " ++ optVal (mkResp Intent.book_ticket
            [("from_city", some "Beijing")] none).clarify_question,
         (resolverSearch backendOne
            (mkResp Intent.book_ticket [("from_city", some "Beijing")] none)).2))) :=
  ⟨rfl,
   claim2_single_match_autofill backendOne none
     (mkResp Intent.book_ticket [("from_city", some "Beijing")] none) trainG100
     (Or.inl rfl) (Or.inl (by rfl)) (by rfl) rfl (by decide)⟩

/-- Claim C4 counterexample: a cancel intent with empty entityId, origin
Atlantis, and a zero-match catalog produces the please-specify-an-id
message, not a response stating that no trains were found. -/
theorem claim4_counterexample :
    executeAction backendNone none
        (mkResp Intent.cancel_ticket [("from_city", some "Atlantis")] none) =
      ("❌ Please specify a train ID to cancel",
       [BackendCall.ticketsCall (some "Atlantis") none none]) := by
  rfl

/-- Claim C4 as amended: with empty entityId, truthy location criteria,
and a zero-match catalog search, only the book operation produces the
no-trains-found echo (whose three criteria pieces, empty for absent
criteria, are joined by single spaces and stripped at the ends only, so
an absent middle part leaves a double space), after re-running the
search in the dispatch path; cancel falls through to the
please-specify-an-id message and query to its own please-specify message
or to the extractor clarifying question when one is present; in every
case no book, cancel, or query backend call is made. -/
theorem claim4_zero_match_outcomes (b : Backend) (cur : Option String)
    (resp : IntentResponse)
    (hi : resp.intent = Intent.book_ticket ∨ resp.intent = Intent.cancel_ticket ∨
      resp.intent = Intent.query_ticket)
    (hloc : truthy (slotFrom resp) = true ∨ truthy (slotTo resp) = true)
    (hid : truthy (slotTrainId resp) = false)
    (hs : (resolverSearch b resp).1 = []) :
    (resp.intent = Intent.book_ticket →
      executeAction b cur resp =
        ("❌ No trains found " ++
           (String.intercalate " "
             [if truthy (slotFrom resp) = true then "from " ++ optVal (slotFrom resp) else "",
              if truthy (slotTo resp) = true then "to " ++ optVal (slotTo resp) else "",
              if truthy (slotDate resp) = true then "on " ++ optVal (slotDate resp)
              else ""]).trim,
         (resolverSearch b resp).2 ++ (resolverSearch b resp).2)) ∧
    (resp.intent = Intent.cancel_ticket →
      executeAction b cur resp =
        ("❌ Please specify a train ID to cancel", (resolverSearch b resp).2)) ∧
    (resp.intent = Intent.query_ticket → truthy resp.clarify_question = false →
      executeAction b cur resp =
        ("❌ Please specify a train ID (e.g., G100, D200, K300)",
         (resolverSearch b resp).2)) ∧
    (resp.intent = Intent.query_ticket → truthy resp.clarify_question = true →
      executeAction b cur resp =
        ("🤔 " ++ optVal resp.clarify_question, (resolverSearch b resp).2)) ∧
    (∀ c ∈ (executeAction b cur resp).2,
      (∀ id u, c ≠ BackendCall.bookCall id u) ∧
      (∀ id u, c ≠ BackendCall.cancelCall id u) ∧
      (∀ id, c ≠ BackendCall.queryCall id)) := by
  have hca := checkAmb_zero b resp hi hloc hs
  have hidU : truthy (pget resp.parameters "train_id" (some "")) = false := hid
  have hsU : (searchTrainsInternal b (pget resp.parameters "from_city" (some ""))
      (pget resp.parameters "to_city" (some ""))
      (pget resp.parameters "date" (some ""))).1 = [] := hs
  have hlocU : truthy (pget resp.parameters "from_city" (some "")) = true ∨
      truthy (pget resp.parameters "to_city" (some "")) = true := hloc
  have hlocn : truthy (pget resp.parameters "from_city" none) = true ∨
      truthy (pget resp.parameters "to_city" none) = true := by
    rcases hloc with h | h
    · left; rw [truthy_pget_none]; exact h
    · right; rw [truthy_pget_none]; exact h
  have hEA := executeAction_of_none b cur resp _ _ hca
  have htrace : (resolverSearch b resp).2 =
      [BackendCall.ticketsCall (normParam (slotFrom resp)) (normParam (slotTo resp))
        (normParam (slotDate resp))] := searchTrainsInternal_trace b _ _ _
  have hbook : resp.intent = Intent.book_ticket →
      executeAction b cur resp =
        ("❌ No trains found " ++
           (String.intercalate " "
             [if truthy (slotFrom resp) = true then "from " ++ optVal (slotFrom resp) else "",
              if truthy (slotTo resp) = true then "to " ++ optVal (slotTo resp) else "",
              if truthy (slotDate resp) = true then "on " ++ optVal (slotDate resp)
              else ""]).trim,
         (resolverSearch b resp).2 ++ (resolverSearch b resp).2) := by
    intro hb
    rw [hEA, if_neg (fun hc => hc.2 ⟨Or.inl hb, hlocn⟩), hb]
    unfold dispatchIntent
    simp [hidU, hlocU, hsU, noTrainsFoundMsg, resolverSearch, slotFrom, slotTo, slotDate]
  have hcancel : resp.intent = Intent.cancel_ticket →
      executeAction b cur resp =
        ("❌ Please specify a train ID to cancel", (resolverSearch b resp).2) := by
    intro hb
    rw [hEA, if_neg (fun hc => hc.2 ⟨Or.inr hb, hlocn⟩), hb]
    unfold dispatchIntent
    simp [hidU]
  have hq1 : resp.intent = Intent.query_ticket → truthy resp.clarify_question = false →
      executeAction b cur resp =
        ("❌ Please specify a train ID (e.g., G100, D200, K300)",
         (resolverSearch b resp).2) := by
    intro hb hcl
    rw [hEA, if_neg (fun hc => Bool.false_ne_true (hcl ▸ hc.1)), hb]
    unfold dispatchIntent
    simp [hidU]
  have hq2 : resp.intent = Intent.query_ticket → truthy resp.clarify_question = true →
      executeAction b cur resp =
        ("🤔 " ++ optVal resp.clarify_question, (resolverSearch b resp).2) := by
    intro hb hcl
    have hcnd : truthy resp.clarify_question = true ∧
        ¬((resp.intent = Intent.book_ticket ∨ resp.intent = Intent.cancel_ticket) ∧
          (truthy (pget resp.parameters "from_city" none) = true ∨
           truthy (pget resp.parameters "to_city" none) = true)) := by
      refine ⟨hcl, ?_⟩
      rintro ⟨hor, -⟩
      rcases hor with h1 | h1 <;> rw [hb] at h1 <;> exact Intent.noConfusion h1
    rw [hEA, if_pos hcnd]
  refine ⟨hbook, hcancel, hq1, hq2, ?_⟩
  intro c hc
  have hcall : c = BackendCall.ticketsCall (normParam (slotFrom resp))
      (normParam (slotTo resp)) (normParam (slotDate resp)) := by
    rcases hi with h | h | h
    · rw [hbook h, htrace] at hc
      simpa using hc
    · rw [hcancel h, htrace] at hc
      simpa using hc
    · by_cases hcl : truthy resp.clarify_question = true
      · rw [hq2 h hcl, htrace] at hc
        simpa using hc
      · rw [hq1 h (by simpa using hcl), htrace] at hc
        simpa using hc
  subst hcall
  exact ⟨fun id u => by simp, fun id u => by simp, fun id => by simp⟩

/-- Witness for claim C4: booking from Atlantis against an empty
catalog. -/
theorem claim4_witness :
    (resolverSearch backendNone
        (mkResp Intent.book_ticket [("from_city", some "Atlantis")] none)).1 = [] ∧
    executeAction backendNone none
        (mkResp Intent.book_ticket [("from_city", some "Atlantis")] none) =
      ("❌ No trains found " ++
         (String.intercalate " "
           [if truthy (slotFrom (mkResp Intent.book_ticket
                [("from_city", some "Atlantis")] none)) = true then
              "from " ++ optVal (slotFrom (mkResp Intent.book_ticket
                [("from_city", some "Atlantis")] none))
            else "",
            if truthy (slotTo (mkResp Intent.book_ticket
                [("from_city", some "Atlantis")] none)) = true then
              "to " ++ optVal (slotTo (mkResp Intent.book_ticket
                [("from_city", some "Atlantis")] none))
            else "",
            if truthy (slotDate (mkResp Intent.book_ticket
                [("from_city", some "Atlantis")] none)) = true then
              "on " ++ optVal (slotDate (mkResp Intent.book_ticket
                [("from_city", some "Atlantis")] none))
            else ""]).trim,
       (resolverSearch backendNone
          (mkResp Intent.book_ticket [("from_city", some "Atlantis")] none)).2 ++
         (resolverSearch backendNone
            (mkResp Intent.book_ticket [("from_city", some "Atlantis")] none)).2) :=
  ⟨rfl,
   (claim4_zero_match_outcomes backendNone none
      (mkResp Intent.book_ticket [("from_city", some "Atlantis")] none)
      (Or.inl rfl) (Or.inl (by rfl)) (by rfl) rfl).1 rfl⟩

/-- Claim C7 counterexample: a book intent arriving with the explicit
train id G100 and origin Beijing still triggers the catalog ambiguity
search (the trace holds a tickets request), and with two matches the
explicit id is overridden by a clarification instead of proceeding to
dispatch. -/
theorem claim7_counterexample :
    executeAction backendTwo none
        (mkResp Intent.book_ticket
          [("train_id", some "G100"), ("from_city", some "Beijing")] none) =
      ("🤔 I found multiple trains from Beijing:\n\n1. G100: Beijing → Shanghai | 2025-03-01 | 08:00\n2. G102: Beijing → Shanghai | 2025-03-01 | 09:30\n\nWhich specific train would you like to book? Please specify the train ID (e.g., G100).",
       [BackendCall.ticketsCall (some "Beijing") none none]) := by
  rfl

/-- Claim C7 as amended: the ambiguity search is gated on the location
criteria, not on the entityId slot: an intent with a non-empty entityId
and no truthy origin/destination issues no catalog search and (absent an
extractor clarifying question) proceeds straight to the dispatched
operation; but when a location criterion is present the search still runs
even with an explicit entityId, and two or more matches override the
explicit id with a clarification. -/
theorem claim7_search_gated_by_location (b : Backend) (cur : Option String)
    (resp : IntentResponse)
    (hi : resp.intent = Intent.book_ticket ∨ resp.intent = Intent.cancel_ticket ∨
      resp.intent = Intent.query_ticket)
    (hid : truthy (slotTrainId resp) = true) :
    ((truthy (slotFrom resp) = false ∧ truthy (slotTo resp) = false) →
      checkTrainAmbiguity b resp = (none, resp.parameters, []) ∧
      (truthy resp.clarify_question = false →
        executeAction b cur resp =
          dispatchExplicitOp b cur resp.intent (optVal (slotTrainId resp))
            (slotUserId resp))) ∧
    (∀ ts : List Train,
      (truthy (slotFrom resp) = true ∨ truthy (slotTo resp) = true) →
      (resolverSearch b resp).1 = ts → 1 < ts.length →
      executeAction b cur resp =
        ("🤔 " ++ ambiguityQuestion resp.intent (slotFrom resp) (slotTo resp)
           (slotDate resp) ts,
         (resolverSearch b resp).2)) := by
  have hidU : truthy (pget resp.parameters "train_id" (some "")) = true := hid
  constructor
  · rintro ⟨hf, ht⟩
    have hca := checkAmb_noloc b resp hf ht
    refine ⟨hca, ?_⟩
    intro hcl
    rw [executeAction_of_none b cur resp _ _ hca,
      if_neg (fun hc => Bool.false_ne_true (hcl ▸ hc.1))]
    rcases hi with hb | hb | hb <;> rw [hb] <;>
      unfold dispatchIntent dispatchExplicitOp <;>
      simp [hidU, slotTrainId, slotUserId, slotFrom, slotTo,
        (by exact hf : truthy (pget resp.parameters "from_city" (some "")) = false),
        (by exact ht : truthy (pget resp.parameters "to_city" (some "")) = false)]
  · intro ts hloc hs hlen
    have hq := checkAmb_multi b resp ts hi hloc hs hlen
    exact executeAction_of_some b cur resp _ _ _ hq

/-- Witness for claim C7: a cancel intent with explicit id and no
location issues no search; a book intent with explicit id and origin
Beijing against a two-match catalog gets the override clarification. -/
theorem claim7_witness :
    (checkTrainAmbiguity backendTwo
        (mkResp Intent.cancel_ticket [("train_id", some "G100")] none) =
      (none, (mkResp Intent.cancel_ticket [("train_id", some "G100")] none).parameters, []) ∧
     (truthy (mkResp Intent.cancel_ticket [("train_id", some "G100")] none).clarify_question =
          false →
      executeAction backendTwo none
          (mkResp Intent.cancel_ticket [("train_id", some "G100")] none) =
        dispatchExplicitOp backendTwo none
          (mkResp Intent.cancel_ticket [("train_id", some "G100")] none).intent
          (optVal (slotTrainId (mkResp Intent.cancel_ticket [("train_id", some "G100")] none)))
          (slotUserId (mkResp Intent.cancel_ticket [("train_id", some "G100")] none)))) ∧
    executeAction backendTwo none
        (mkResp Intent.book_ticket
          [("train_id", some "G100"), ("from_city", some "Beijing")] none) =
      ("🤔 " ++ ambiguityQuestion
          (mkResp Intent.book_ticket
            [("train_id", some "G100"), ("from_city", some "Beijing")] none).intent
          (slotFrom (mkResp Intent.book_ticket
            [("train_id", some "G100"), ("from_city", some "Beijing")] none))
          (slotTo (mkResp Intent.book_ticket
            [("train_id", some "G100"), ("from_city", some "Beijing")] none))
          (slotDate (mkResp Intent.book_ticket
            [("train_id", some "G100"), ("from_city", some "Beijing")] none))
          [trainG100, trainG102],
       (resolverSearch backendTwo
          (mkResp Intent.book_ticket
            [("train_id", some "G100"), ("from_city", some "Beijing")] none)).2) :=
  ⟨(claim7_search_gated_by_location backendTwo none
      (mkResp Intent.cancel_ticket [("train_id", some "G100")] none)
      (Or.inr (Or.inl rfl)) (by rfl)).1 ⟨by rfl, by rfl⟩,
   (claim7_search_gated_by_location backendTwo none
      (mkResp Intent.book_ticket
        [("train_id", some "G100"), ("from_city", some "Beijing")] none)
      (Or.inl rfl) (by rfl)).2 [trainG100, trainG102] (Or.inl (by rfl)) rfl (by simp)⟩

/-- Claim C8 counterexample: a cancel intent with origin Beijing and an
extractor clarifying question, whose catalog search raises: the message
surfaced is the dispatch-path please-specify-an-id report, not the
extractor question, refuting that the original clarifying question is
surfaced on search failure. -/
theorem claim8_counterexample :
    executeAction backendFail none
        (mkResp Intent.cancel_ticket [("from_city", some "Beijing")]
          (some "Which train did you mean?")) =
      ("❌ Please specify a train ID to cancel",
       [BackendCall.ticketsCall (some "Beijing") none none]) := by
  rfl

/-- Claim C8 as amended: when the catalog search of the resolver fails
(raised exception or non-200 response), the resolver itself falls
through without blocking, asking, or touching the record; the extractor
clarifying question is then surfaced only for a query operation; a book
operation re-queries in the dispatch path and reports no trains found
(failure being indistinguishable from zero matches), and a cancel
operation reports please-specify-an-id. -/
theorem claim8_failure_fallthrough (b : Backend) (cur : Option String)
    (resp : IntentResponse)
    (hi : resp.intent = Intent.book_ticket ∨ resp.intent = Intent.cancel_ticket ∨
      resp.intent = Intent.query_ticket)
    (hloc : truthy (slotFrom resp) = true ∨ truthy (slotTo resp) = true)
    (hfail : (∃ em, b.tickets (normParam (slotFrom resp)) (normParam (slotTo resp))
        (normParam (slotDate resp)) = TicketsResult.exn em) ∨
      (∃ (code : Int) (ts : List Train), code ≠ 200 ∧
        b.tickets (normParam (slotFrom resp)) (normParam (slotTo resp))
          (normParam (slotDate resp)) = TicketsResult.resp code ts)) :
    checkTrainAmbiguity b resp = (none, resp.parameters, (resolverSearch b resp).2) ∧
    (resp.intent = Intent.query_ticket → truthy resp.clarify_question = true →
      executeAction b cur resp =
        ("🤔 " ++ optVal resp.clarify_question, (resolverSearch b resp).2)) ∧
    (resp.intent = Intent.book_ticket → truthy (slotTrainId resp) = false →
      executeAction b cur resp =
        ("❌ No trains found " ++
           (String.intercalate " "
             [if truthy (slotFrom resp) = true then "from " ++ optVal (slotFrom resp) else "",
              if truthy (slotTo resp) = true then "to " ++ optVal (slotTo resp) else "",
              if truthy (slotDate resp) = true then "on " ++ optVal (slotDate resp)
              else ""]).trim,
         (resolverSearch b resp).2 ++ (resolverSearch b resp).2)) ∧
    (resp.intent = Intent.cancel_ticket → truthy (slotTrainId resp) = false →
      executeAction b cur resp =
        ("❌ Please specify a train ID to cancel", (resolverSearch b resp).2)) := by
  have hs : (resolverSearch b resp).1 = [] := by
    unfold resolverSearch searchTrainsInternal
    rcases hfail with ⟨em, he⟩ | ⟨code, ts, hcode, he⟩
    · rw [he]
    · rw [he]
      simp [hcode]
  have hca := checkAmb_zero b resp hi hloc hs
  have hsU : (searchTrainsInternal b (pget resp.parameters "from_city" (some ""))
      (pget resp.parameters "to_city" (some ""))
      (pget resp.parameters "date" (some ""))).1 = [] := hs
  have hlocU : truthy (pget resp.parameters "from_city" (some "")) = true ∨
      truthy (pget resp.parameters "to_city" (some "")) = true := hloc
  have hlocn : truthy (pget resp.parameters "from_city" none) = true ∨
      truthy (pget resp.parameters "to_city" none) = true := by
    rcases hloc with h | h
    · left; rw [truthy_pget_none]; exact h
    · right; rw [truthy_pget_none]; exact h
  have hEA := executeAction_of_none b cur resp _ _ hca
  refine ⟨hca, ?_, ?_, ?_⟩
  · intro hb hcl
    have hcnd : truthy resp.clarify_question = true ∧
        ¬((resp.intent = Intent.book_ticket ∨ resp.intent = Intent.cancel_ticket) ∧
          (truthy (pget resp.parameters "from_city" none) = true ∨
           truthy (pget resp.parameters "to_city" none) = true)) := by
      refine ⟨hcl, ?_⟩
      rintro ⟨hor, -⟩
      rcases hor with h1 | h1 <;> rw [hb] at h1 <;> exact Intent.noConfusion h1
    rw [hEA, if_pos hcnd]
  · intro hb hid
    have hidU : truthy (pget resp.parameters "train_id" (some "")) = false := hid
    rw [hEA, if_neg (fun hc => hc.2 ⟨Or.inl hb, hlocn⟩), hb]
    unfold dispatchIntent
    simp [hidU, hlocU, hsU, noTrainsFoundMsg, resolverSearch, slotFrom, slotTo, slotDate]
  · intro hb hid
    have hidU : truthy (pget resp.parameters "train_id" (some "")) = false := hid
    rw [hEA, if_neg (fun hc => hc.2 ⟨Or.inr hb, hlocn⟩), hb]
    unfold dispatchIntent
    simp [hidU]

/-- Witness for claim C8: a query intent from Beijing with an extractor
question against a backend whose catalog search raises. -/
theorem claim8_witness :
    (checkTrainAmbiguity backendFail
        (mkResp Intent.query_ticket [("from_city", some "Beijing")] (some "Which train?")) =
      (none,
       (mkResp Intent.query_ticket [("from_city", some "Beijing")]
         (some "Which train?")).parameters,
       (resolverSearch backendFail
          (mkResp Intent.query_ticket [("from_city", some "Beijing")]
            (some "Which train?"))).2)) ∧
    executeAction backendFail none
        (mkResp Intent.query_ticket [("from_city", some "Beijing")] (some "Which train?")) =
      ("🤔 " ++ optVal (mkResp Intent.query_ticket [("from_city", some "Beijing")]
          (some "Which train?")).clarify_question,
       (resolverSearch backendFail
          (mkResp Intent.query_ticket [("from_city", some "Beijing")]
            (some "Which train?"))).2) := by
  have h := claim8_failure_fallthrough backendFail none
    (mkResp Intent.query_ticket [("from_city", some "Beijing")] (some "Which train?"))
    (Or.inr (Or.inr rfl)) (Or.inl (by rfl))
    (Or.inl ⟨"connection refused", rfl⟩)
  exact ⟨h.1, h.2.1 rfl (by rfl)⟩

end TrainBooking
